import Mathlib

/-!
# Verification of the unityLab multi-agent orchestration backend

Shallow embedding of the orchestration core of the repository:

* `src/routes/revolutionary_relay.py` — the session-based relay workers
  (`expert_panel_worker`, `conference_chain_worker`), the HTTP-facing
  session operations (`start_expert_panel`, `get_session_status`,
  `stop_session`) and the shared upstream call `call_openrouter_api`;
* `src/routes/pipelines.py` — the synchronous pipelines (`pairs_run`,
  `chain_run`) built on the raising upstream call `call_llm` and the
  aggregator `summarize_with_gpt5`;
* `src/routes/conference_system.py` — the conference session endpoints
  (`start_conference`, `continue_conference`, `synthesize_conference`).

The single remote collaborator (the OpenRouter chat-completions endpoint)
is abstracted as an oracle assigning to each outbound call an `ApiResp`:
a successful body, a non-success HTTP status, or a raised transport
exception.  Wall-clock values (timestamps, sleeps) are abstracted away;
a timestamp field is modelled as the boolean "has been set".
-/

namespace UnityLab

/-- Outcome of one outbound HTTP call to the model provider, as seen by the
caller: a 200 response whose first-choice content is `content`, a non-200
status with its body text, or a raised exception (transport error or
malformed payload) carrying its message. -/
inductive ApiResp where
  | ok (content : String)
  | httpError (code : Nat) (body : String)
  | exn (msg : String)
deriving DecidableEq, Repr

/-- One chat message `{role, content}`. -/
structure Msg where
  role : String
  content : String
deriving DecidableEq, Repr

/-! ## revolutionary_relay.py : agent table and upstream call -/

/-- One entry of the `RELAY_AGENTS` table. -/
structure RelayAgent where
  id : String
  name : String
  model : String
  specialty : String
deriving DecidableEq, Repr

/-- The static 20-agent table `RELAY_AGENTS` of `revolutionary_relay.py`. -/
def RELAY_AGENTS : List RelayAgent := [
  ⟨"gpt-4o", "GPT-4o", "openai/gpt-4o", "Strategic Analysis"⟩,
  ⟨"chatgpt-4-turbo", "ChatGPT 4 Turbo", "openai/gpt-4-turbo", "Business Strategy"⟩,
  ⟨"deepseek-r1", "DeepSeek R1", "deepseek/deepseek-r1", "Technical Expert"⟩,
  ⟨"meta-llama-3.3", "Meta Llama 3.3", "meta-llama/llama-3.3-70b-instruct", "Creative Analysis"⟩,
  ⟨"mistral-large", "Mistral Large", "mistralai/mistral-large", "Analytical Processing"⟩,
  ⟨"gemini-2.0-flash", "Gemini 2.0 Flash", "google/gemini-2.0-flash-exp", "Creative Synthesis"⟩,
  ⟨"perplexity-pro", "Perplexity Pro", "perplexity/llama-3.1-sonar-huge-128k-online", "Research Expert"⟩,
  ⟨"gemini-pro-1.5", "Gemini Pro 1.5", "google/gemini-pro-1.5", "Document Analysis"⟩,
  ⟨"command-r-plus", "Command R+", "cohere/command-r-plus", "Enterprise Solutions"⟩,
  ⟨"qwen-2.5-72b", "Qwen 2.5 72B", "qwen/qwen-2.5-72b-instruct", "Multilingual Expert"⟩,
  ⟨"llama-3.3-70b", "Llama 3.3 70B", "meta-llama/llama-3.3-70b-instruct", "Logical Reasoning"⟩,
  ⟨"mixtral-8x22b", "Mixtral 8x22B", "mistralai/mixtral-8x22b-instruct", "System Design"⟩,
  ⟨"yi-large", "Yi Large", "01-ai/yi-large", "Innovation Expert"⟩,
  ⟨"nous-hermes-3", "Nous Hermes 3", "nousresearch/hermes-3-llama-3.1-405b", "Free Thinking"⟩,
  ⟨"wizardlm-2", "WizardLM 2", "microsoft/wizardlm-2-8x22b", "Mathematical Reasoning"⟩,
  ⟨"dolphin-mixtral", "Dolphin Mixtral", "cognitivecomputations/dolphin-2.9-llama3-70b", "Bold Synthesis"⟩,
  ⟨"openhermes-2.5", "OpenHermes 2.5", "teknium/openhermes-2.5-mistral-7b", "Collaboration Expert"⟩,
  ⟨"starling-7b", "Starling 7B", "berkeley-nest/starling-lm-7b-alpha", "Quick Insights"⟩,
  ⟨"neural-chat", "Neural Chat", "intel/neural-chat-7b-v3-3", "Dialogue Expert"⟩,
  ⟨"zephyr-beta", "Zephyr Beta", "huggingfaceh4/zephyr-7b-beta", "Final Synthesis"⟩]

/-- Placeholder agent for out-of-range table accesses (never reached on the
index ranges the workers use). -/
def defaultAgent : RelayAgent := ⟨"", "", "", ""⟩

/-- `RELAY_AGENTS[i]`. -/
def relayAgentAt (i : Nat) : RelayAgent := RELAY_AGENTS.getD i defaultAgent

/-- `call_openrouter_api(agent, message)` of `revolutionary_relay.py`: a 200
response yields the first-choice content; a non-200 status yields the string
`"Error: {status_code} - {text}"`; a raised exception yields
`"API Error: {str(e)}"`.  The function never raises: every outcome is
returned as plain text. -/
def call_openrouter_api (agent : RelayAgent) (message : String) (resp : ApiResp) : String :=
  match agent, message, resp with
  | _, _, .ok content => content
  | _, _, .httpError code body => "Error: " ++ toString code ++ " - " ++ body
  | _, _, .exn msg => "API Error: " ++ msg

/-! ## conference_chain_worker : session record, loop, execution trace -/

/-- One entry of `session['results']` as built by `conference_chain_worker`.
The dict stores the outcome text under the single key `response`; there is
no `error` key.  To let spec-level statements about a per-result `error`
field be expressed, both are carried as `Option` values: the worker always
fills `response` with `some` text and leaves `error` at `none` (absent). -/
structure ChainResult where
  agent_number : Nat
  agent_name : String
  agent_specialty : String
  response : Option String
  error : Option String
  sticky_context_used : Bool
deriving DecidableEq, Repr

/-- The session dict of a conference-chain run, with the fields touched by
`start_conference_chain`, `conference_chain_worker`, `get_session_status`
and `stop_session`.  `completed_at` is modelled as "timestamp has been
set". -/
structure ChainSession where
  mode : String
  prompt : String
  status : String
  current_agent : Nat
  current_agent_name : String
  total_agents : Nat
  sticky_context : String
  results : List ChainResult
  completed_at : Bool
deriving DecidableEq, Repr

/-- The session dict as initialised by the `start_conference_chain` route
(before the worker thread touches it): status `"starting"`, zero counters,
no results. -/
def initChainSession (prompt : String) (max_agents : Nat) : ChainSession :=
  { mode := "conference_chain"
    prompt := prompt
    status := "starting"
    current_agent := 0
    current_agent_name := "Initializing..."
    total_agents := min max_agents RELAY_AGENTS.length
    sticky_context := ""
    results := []
    completed_at := false }

/-- The sticky-context message sent to every agent after the first:
`f"ORIGINAL PROMPT: {prompt}\n\nPREVIOUS INSIGHT: {latest_response}\n\nBuild upon this insight with your expertise:"`. -/
def chainTemplate (prompt latest : String) : String :=
  "ORIGINAL PROMPT: " ++ prompt ++ "\n\nPREVIOUS INSIGHT: " ++ latest ++
    "\n\nBuild upon this insight with your expertise:"

/-- `session['results'][-1]['response']` — the latest stored response text
(only read when the list is non-empty). -/
def latestResponse (results : List ChainResult) : String :=
  ((results.getLast?.bind (·.response)).getD "")

/-- The user message of turn `agent_index` (0-based): the bare prompt for
the first agent, the sticky-context template for every later one. -/
def chainMessageOf (prompt : String) (agent_index : Nat) (results : List ChainResult) : String :=
  if agent_index = 0 then prompt else chainTemplate prompt (latestResponse results)

/-- One outbound invocation performed by the chain worker: the 0-based agent
index, the user message sent, and the text that came back. -/
structure ChainInvocation where
  agent_index : Nat
  message : String
  response : String
deriving DecidableEq, Repr

/-- Running state of a chain worker execution: the current session dict,
the chronological list of session snapshots (one after every mutation of
the shared dict, i.e. everything a concurrent `get_session_status` poll
could observe), and the log of invocations performed. -/
structure ChainExec where
  session : ChainSession
  trace : List ChainSession
  invocations : List ChainInvocation
deriving Repr

/-- The result dict appended for turn `i` given the message it was sent and
the upstream outcome. -/
def mkChainStored (i : Nat) (resp : String) : ChainResult :=
  { agent_number := i + 1
    agent_name := (relayAgentAt i).name
    agent_specialty := (relayAgentAt i).specialty
    response := some resp
    error := none
    sticky_context_used := decide (0 < i) }

/-- The `for agent_index in range(...)` loop body of
`conference_chain_worker`, over the list of remaining agent indices.
`stop i` tells whether a concurrent `stop_session` had set the status to
`'stopped'` by the time the check at the top of iteration `i` runs (the
loop then `break`s); `oracle i` is the upstream outcome of call `i`. -/
def chainStepExec (prompt : String) (oracle : Nat → ApiResp) (i : Nat) (e : ChainExec) :
    ChainExec :=
  let s1 := { e.session with current_agent := i + 1 }
  let s2 := { s1 with current_agent_name := (relayAgentAt i).name }
  let msg := chainMessageOf prompt i e.session.results
  let resp := call_openrouter_api (relayAgentAt i) msg (oracle i)
  let s3 := { s2 with results := s2.results ++ [mkChainStored i resp] }
  { session := s3
    trace := e.trace ++ [s1, s2, s3]
    invocations := e.invocations ++ [⟨i, msg, resp⟩] }

def chainLoop (prompt : String) (oracle : Nat → ApiResp) (stop : Nat → Bool) :
    List Nat → ChainExec → ChainExec
  | [], e => e
  | i :: rest, e =>
    if stop i then e
    else chainLoop prompt oracle stop rest (chainStepExec prompt oracle i e)

/-- The preamble mutations of `conference_chain_worker` before its loop:
status `'running'`, results cleared, sticky context stored, agent total
stored — each an observable snapshot of the shared dict. -/
def chainInitExec (prompt : String) (max_agents : Nat) : ChainExec :=
  let s0 := initChainSession prompt max_agents
  let sA := { s0 with status := "running" }
  let sB := { sA with results := [] }
  let sC := { sB with sticky_context := prompt }
  let sD := { sC with total_agents := min max_agents RELAY_AGENTS.length }
  { session := sD, trace := [s0, sA, sB, sC, sD], invocations := [] }

/-- The epilogue of both workers: status `'completed'` and the completion
timestamp, written unconditionally after the loop exits (also after a
`break` on a stopped session). -/
def chainFinishExec (e : ChainExec) : ChainExec :=
  let sE := { e.session with status := "completed" }
  let sF := { sE with completed_at := true }
  { session := sF, trace := e.trace ++ [sE, sF], invocations := e.invocations }

/-- `conference_chain_worker(session_id, prompt, max_agents)`: marks the
session running, clears the results, stores the sticky context and agent
total, runs the sequential loop, then unconditionally marks the session
completed and stamps `completed_at`. -/
def conference_chain_worker (prompt : String) (max_agents : Nat)
    (oracle : Nat → ApiResp) (stop : Nat → Bool) : ChainExec :=
  chainFinishExec (chainLoop prompt oracle stop
    (List.range (min max_agents RELAY_AGENTS.length)) (chainInitExec prompt max_agents))

/-! ## Closed forms for an uninterrupted chain run -/

/-- The user message of turn `i` in a run that reaches turn `i`: the bare
prompt for turn 0, thereafter the sticky template around the previous
turn's outcome text. -/
def chainMessageAt (prompt : String) (oracle : Nat → ApiResp) : Nat → String
  | 0 => prompt
  | i + 1 => chainTemplate prompt
      (call_openrouter_api (relayAgentAt i) (chainMessageAt prompt oracle i) (oracle i))

/-- The outcome text of turn `i` in a run that reaches turn `i`. -/
def chainResponseAt (prompt : String) (oracle : Nat → ApiResp) (i : Nat) : String :=
  call_openrouter_api (relayAgentAt i) (chainMessageAt prompt oracle i) (oracle i)

/-- The result dict the worker appends for turn `i`. -/
def mkChainResultAt (prompt : String) (oracle : Nat → ApiResp) (i : Nat) : ChainResult :=
  mkChainStored i (chainResponseAt prompt oracle i)

/-- The invocation record of turn `i`. -/
def chainInvAt (prompt : String) (oracle : Nat → ApiResp) (i : Nat) : ChainInvocation :=
  ⟨i, chainMessageAt prompt oracle i, chainResponseAt prompt oracle i⟩

/-- The list of 0-based turn indices the chain worker dispatches before the
stop flag is first observed. -/
def chainDispatched (stop : Nat → Bool) (total : Nat) : List Nat :=
  (List.range total).takeWhile (fun i => !stop i)

/-- Progress order on observable session snapshots: the agent counter and
the result count both grow. -/
def progLe (x y : ChainSession) : Prop :=
  x.current_agent ≤ y.current_agent ∧ x.results.length ≤ y.results.length

theorem progLe_refl (x : ChainSession) : progLe x x := ⟨le_refl _, le_refl _⟩

theorem progLe_trans {x y z : ChainSession} (h : progLe x y) (h' : progLe y z) :
    progLe x z := ⟨le_trans h.1 h'.1, le_trans h.2 h'.2⟩

instance : IsTrans ChainSession progLe := ⟨fun _ _ _ => progLe_trans⟩

instance : IsRefl ChainSession progLe := ⟨progLe_refl⟩

theorem latestResponse_map_range (prompt : String) (oracle : Nat → ApiResp) (i : Nat) :
    latestResponse ((List.range (i + 1)).map (mkChainResultAt prompt oracle))
      = chainResponseAt prompt oracle i := by
  simp [latestResponse, List.range_succ, List.getLast?_concat, mkChainResultAt, mkChainStored]

theorem chainMessageOf_map_range (prompt : String) (oracle : Nat → ApiResp) (a : Nat) :
    chainMessageOf prompt a ((List.range a).map (mkChainResultAt prompt oracle))
      = chainMessageAt prompt oracle a := by
  cases a with
  | zero => simp [chainMessageOf, chainMessageAt]
  | succ i =>
      simp [chainMessageOf, chainMessageAt, latestResponse_map_range, chainResponseAt]

theorem chainStepExec_results (prompt : String) (oracle : Nat → ApiResp) (i : Nat)
    (e : ChainExec) (h : e.session.results = (List.range i).map (mkChainResultAt prompt oracle)) :
    (chainStepExec prompt oracle i e).session.results
      = (List.range (i + 1)).map (mkChainResultAt prompt oracle) := by
  simp [chainStepExec, h, chainMessageOf_map_range, List.range_succ, mkChainResultAt,
    chainResponseAt]

/-- Invariant carried through the chain loop: the session's agent counter
matches the number of turns already taken and the results are exactly the
closed-form results of those turns, the trace so far is progress-sorted and
its last snapshot is dominated by the current session. -/
def ChainInv (prompt : String) (oracle : Nat → ApiResp) (a : Nat) (e : ChainExec) : Prop :=
  e.session.current_agent = a ∧
  e.session.results = (List.range a).map (mkChainResultAt prompt oracle) ∧
  List.Chain' progLe e.trace ∧
  (∀ x ∈ e.trace.getLast?, progLe x e.session)

/-- Everything the loop preserves verbatim on the session record. -/
def chainFrame (s s' : ChainSession) : Prop :=
  s'.status = s.status ∧ s'.mode = s.mode ∧ s'.prompt = s.prompt ∧
  s'.total_agents = s.total_agents ∧ s'.completed_at = s.completed_at ∧
  s'.sticky_context = s.sticky_context

theorem chainFrame_refl (s : ChainSession) : chainFrame s s :=
  ⟨rfl, rfl, rfl, rfl, rfl, rfl⟩

theorem chainFrame_trans {s t u : ChainSession} (h : chainFrame s t) (h' : chainFrame t u) :
    chainFrame s u := by
  obtain ⟨a1, a2, a3, a4, a5, a6⟩ := h
  obtain ⟨b1, b2, b3, b4, b5, b6⟩ := h'
  exact ⟨b1.trans a1, b2.trans a2, b3.trans a3, b4.trans a4, b5.trans a5, b6.trans a6⟩

theorem getLast?_append_three {α : Type} (l : List α) (a b c : α) :
    (l ++ [a, b, c]).getLast? = some c := by
  rw [show [a, b, c] = [a, b] ++ [c] from rfl, ← List.append_assoc, List.getLast?_concat]

theorem chainStepExec_inv (prompt : String) (oracle : Nat → ApiResp) (i : Nat)
    (e : ChainExec) (h : ChainInv prompt oracle i e) :
    ChainInv prompt oracle (i + 1) (chainStepExec prompt oracle i e) ∧
    chainFrame e.session (chainStepExec prompt oracle i e).session ∧
    (chainStepExec prompt oracle i e).invocations
      = e.invocations ++ [chainInvAt prompt oracle i] := by
  obtain ⟨h1, h2, h3, h4⟩ := h
  refine ⟨⟨?_, ?_, ?_, ?_⟩, ?_, ?_⟩
  · simp [chainStepExec]
  · exact chainStepExec_results prompt oracle i e h2
  · -- trace extended by three snapshots, each dominating the previous
    have hlast : ∀ x ∈ e.trace.getLast?, progLe x { e.session with current_agent := i + 1 } := by
      intro x hx
      exact progLe_trans (h4 x hx) ⟨by simp [h1], by simp⟩
    simp only [chainStepExec]
    rw [List.chain'_append]
    refine ⟨h3, ?_, ?_⟩
    · refine List.chain'_cons.2 ⟨⟨le_refl _, le_refl _⟩, List.chain'_cons.2 ⟨⟨le_refl _, ?_⟩, List.chain'_singleton _⟩⟩
      simp
    · intro x hx y hy
      simp only [List.head?_cons, Option.mem_def, Option.some.injEq] at hy
      subst hy
      exact hlast x hx
  · simp only [chainStepExec, getLast?_append_three]
    intro x hx
    simp only [Option.mem_def, Option.some.injEq] at hx
    subst hx
    exact progLe_refl _
  · exact ⟨rfl, rfl, rfl, rfl, rfl, rfl⟩
  · simp only [chainStepExec, chainInvAt, h2, chainMessageOf_map_range, chainResponseAt]

theorem chainLoop_spec (prompt : String) (oracle : Nat → ApiResp) (stop : Nat → Bool) :
    ∀ (n a : Nat) (e : ChainExec), ChainInv prompt oracle a e →
      ChainInv prompt oracle
        (a + ((List.range' a n).takeWhile (fun i => !stop i)).length)
        (chainLoop prompt oracle stop (List.range' a n) e) ∧
      chainFrame e.session (chainLoop prompt oracle stop (List.range' a n) e).session ∧
      (chainLoop prompt oracle stop (List.range' a n) e).invocations
        = e.invocations
          ++ ((List.range' a n).takeWhile (fun i => !stop i)).map (chainInvAt prompt oracle) := by
  intro n
  induction n with
  | zero =>
      intro a e h
      have hnil : List.range' a 0 = [] := rfl
      rw [hnil]
      exact ⟨by simpa [chainLoop] using h, chainFrame_refl _, by simp [chainLoop]⟩
  | succ n ih =>
      intro a e h
      rw [List.range'_succ]
      by_cases hs : stop a
      · refine ⟨?_, ?_, ?_⟩
        · simpa [chainLoop, hs, List.takeWhile_cons] using h
        · simp only [chainLoop, hs, if_true]
          exact chainFrame_refl _
        · simp [chainLoop, hs, List.takeWhile_cons]
      · have hstep := chainStepExec_inv prompt oracle a e h
        have hrec := ih (a + 1) (chainStepExec prompt oracle a e) hstep.1
        simp only [chainLoop, hs, if_false, Bool.false_eq_true]
        rw [List.takeWhile_cons]
        simp only [hs, Bool.not_false, if_true]
        refine ⟨?_, chainFrame_trans hstep.2.1 hrec.2.1, ?_⟩
        · have := hrec.1
          simpa [Nat.add_comm, Nat.add_assoc, Nat.add_left_comm] using this
        · rw [hrec.2.2, hstep.2.2]
          simp

theorem chainInitExec_inv (prompt : String) (oracle : Nat → ApiResp) (max_agents : Nat) :
    ChainInv prompt oracle 0 (chainInitExec prompt max_agents) := by
  refine ⟨rfl, rfl, ?_, ?_⟩
  · simp [chainInitExec, initChainSession, List.chain'_cons, progLe]
  · intro x hx
    simp only [chainInitExec, List.getLast?_cons, List.getLast?_singleton, Option.getD_some,
      Option.mem_def, Option.some.injEq] at hx
    subst hx
    exact progLe_refl _

theorem chainFinishExec_spec (e : ChainExec)
    (hc : List.Chain' progLe e.trace)
    (hlast : ∀ x ∈ e.trace.getLast?, progLe x e.session) :
    (chainFinishExec e).session.status = "completed" ∧
    (chainFinishExec e).session.completed_at = true ∧
    (chainFinishExec e).session.results = e.session.results ∧
    (chainFinishExec e).session.current_agent = e.session.current_agent ∧
    (chainFinishExec e).session.mode = e.session.mode ∧
    (chainFinishExec e).session.prompt = e.session.prompt ∧
    (chainFinishExec e).session.total_agents = e.session.total_agents ∧
    (chainFinishExec e).invocations = e.invocations ∧
    List.Chain' progLe (chainFinishExec e).trace := by
  refine ⟨rfl, rfl, rfl, rfl, rfl, rfl, rfl, rfl, ?_⟩
  simp only [chainFinishExec]
  rw [List.chain'_append]
  refine ⟨hc, ?_, ?_⟩
  · exact List.chain'_cons.2 ⟨⟨le_refl _, le_refl _⟩, List.chain'_singleton _⟩
  · intro x hx y hy
    simp only [List.head?_cons, Option.mem_def, Option.some.injEq] at hy
    subst hy
    exact progLe_trans (hlast x hx) ⟨le_refl _, le_refl _⟩

/-- Full characterization of a `conference_chain_worker` execution: it
always terminates with status `completed` and a set completion timestamp,
its stored results are exactly the closed-form per-turn results of the
dispatched turns (one per dispatched turn, regardless of upstream
outcomes), its invocation log is the closed-form message/response pair of
each dispatched turn, and its snapshot trace is progress-sorted. -/
theorem conference_chain_worker_spec (prompt : String) (max_agents : Nat)
    (oracle : Nat → ApiResp) (stop : Nat → Bool) :
    (conference_chain_worker prompt max_agents oracle stop).session.status = "completed" ∧
    (conference_chain_worker prompt max_agents oracle stop).session.completed_at = true ∧
    (conference_chain_worker prompt max_agents oracle stop).session.results
      = (List.range (chainDispatched stop (min max_agents RELAY_AGENTS.length)).length).map
          (mkChainResultAt prompt oracle) ∧
    (conference_chain_worker prompt max_agents oracle stop).invocations
      = (chainDispatched stop (min max_agents RELAY_AGENTS.length)).map
          (chainInvAt prompt oracle) ∧
    List.Chain' progLe (conference_chain_worker prompt max_agents oracle stop).trace := by
  have h0 := chainInitExec_inv prompt oracle max_agents
  have hl := chainLoop_spec prompt oracle stop (min max_agents RELAY_AGENTS.length) 0
    (chainInitExec prompt max_agents) h0
  rw [← List.range_eq_range'] at hl
  obtain ⟨⟨hca, hres, hchain, hlast⟩, _hframe, hinvoc⟩ := hl
  have hfin := chainFinishExec_spec
    (chainLoop prompt oracle stop (List.range (min max_agents RELAY_AGENTS.length))
      (chainInitExec prompt max_agents)) hchain hlast
  refine ⟨hfin.1, hfin.2.1, ?_, ?_, hfin.2.2.2.2.2.2.2.2⟩
  · rw [show conference_chain_worker prompt max_agents oracle stop
        = chainFinishExec (chainLoop prompt oracle stop
            (List.range (min max_agents RELAY_AGENTS.length)) (chainInitExec prompt max_agents))
      from rfl, hfin.2.2.1, hres]
    simp [chainDispatched]
  · rw [show conference_chain_worker prompt max_agents oracle stop
        = chainFinishExec (chainLoop prompt oracle stop
            (List.range (min max_agents RELAY_AGENTS.length)) (chainInitExec prompt max_agents))
      from rfl, hfin.2.2.2.2.2.2.2.1, hinvoc]
    simp [chainInitExec, chainDispatched]

/-! ## expert_panel_worker : pair session record, loop, execution trace -/

/-- The per-agent half of a stored pair result.  As in the chain worker,
the dict stores the outcome text under the single key `response` and has
no `error` key; both are carried as `Option`s so spec-level statements
about them can be expressed. -/
structure PairAgentOut where
  name : String
  specialty : String
  response : Option String
  error : Option String
deriving DecidableEq, Repr

/-- One entry of `session['results']` as built by `expert_panel_worker`:
a numbered pair with both agents' outputs. -/
structure PairResult where
  pair_number : Nat
  agent_a : PairAgentOut
  agent_b : PairAgentOut
deriving DecidableEq, Repr

/-- The session dict of an expert-panel run. -/
structure PanelSession where
  mode : String
  prompt : String
  status : String
  current_pair : Nat
  total_pairs : Nat
  current_agents : List String
  results : List PairResult
  completed_at : Bool
deriving DecidableEq, Repr

/-- The session dict as initialised by the `start_expert_panel` route. -/
def initPanelSession (prompt : String) : PanelSession :=
  { mode := "expert_panel"
    prompt := prompt
    status := "starting"
    current_pair := 0
    total_pairs := 10
    current_agents := ["Initializing...", "Waiting..."]
    results := []
    completed_at := false }

/-- The 10 pairs the worker builds from the 20-agent table
(`for i in range(0, 20, 2): pairs.append([RELAY_AGENTS[i], RELAY_AGENTS[i+1]])`). -/
def relayPairs : List (RelayAgent × RelayAgent) :=
  (List.range 10).map (fun k => (relayAgentAt (2 * k), relayAgentAt (2 * k + 1)))

/-- The pair result stored for pair `k`: both agents are sent the same
unmodified prompt; upstream call `2k` answers agent A, call `2k+1` agent
B.  Whatever the outcomes, the texts land in `response` and there is no
`error` key. -/
def mkPairResultAt (prompt : String) (oracle : Nat → ApiResp) (k : Nat) : PairResult :=
  { pair_number := k + 1
    agent_a :=
      { name := (relayAgentAt (2 * k)).name
        specialty := (relayAgentAt (2 * k)).specialty
        response := some (call_openrouter_api (relayAgentAt (2 * k)) prompt (oracle (2 * k)))
        error := none }
    agent_b :=
      { name := (relayAgentAt (2 * k + 1)).name
        specialty := (relayAgentAt (2 * k + 1)).specialty
        response := some (call_openrouter_api (relayAgentAt (2 * k + 1)) prompt (oracle (2 * k + 1)))
        error := none } }

/-- Running state of a panel worker execution: session plus the
chronological snapshot trace. -/
structure PanelExec where
  session : PanelSession
  trace : List PanelSession
deriving Repr

/-- One iteration of the panel loop for pair `k`: counter, pair display
names, the two sequential upstream calls, the appended pair result. -/
def panelStepExec (prompt : String) (oracle : Nat → ApiResp) (k : Nat) (e : PanelExec) :
    PanelExec :=
  let s1 := { e.session with current_pair := k + 1 }
  let s2 := { s1 with
    current_agents := [(relayAgentAt (2 * k)).name, (relayAgentAt (2 * k + 1)).name] }
  let s3 := { s2 with results := s2.results ++ [mkPairResultAt prompt oracle k] }
  { session := s3, trace := e.trace ++ [s1, s2, s3] }

/-- The `for pair_index, pair in enumerate(pairs)` loop of
`expert_panel_worker`, breaking at the first iteration that observes a
stopped status. -/
def panelLoop (prompt : String) (oracle : Nat → ApiResp) (stop : Nat → Bool) :
    List Nat → PanelExec → PanelExec
  | [], e => e
  | k :: rest, e =>
    if stop k then e
    else panelLoop prompt oracle stop rest (panelStepExec prompt oracle k e)

/-- The preamble mutations of `expert_panel_worker` before its loop. -/
def panelInitExec (prompt : String) : PanelExec :=
  let s0 := initPanelSession prompt
  let sA := { s0 with status := "running" }
  let sB := { sA with results := [] }
  let sC := { sB with total_pairs := relayPairs.length }
  { session := sC, trace := [s0, sA, sB, sC] }

/-- The epilogue of `expert_panel_worker`: status `'completed'` and the
completion timestamp, written unconditionally after the loop exits. -/
def panelFinishExec (e : PanelExec) : PanelExec :=
  let sE := { e.session with status := "completed" }
  let sF := { sE with completed_at := true }
  { session := sF, trace := e.trace ++ [sE, sF] }

/-- `expert_panel_worker(session_id, prompt)`. -/
def expert_panel_worker (prompt : String) (oracle : Nat → ApiResp) (stop : Nat → Bool) :
    PanelExec :=
  panelFinishExec (panelLoop prompt oracle stop (List.range relayPairs.length)
    (panelInitExec prompt))

/-- The list of 0-based pair indices the panel worker dispatches before
the stop flag is first observed. -/
def panelDispatched (stop : Nat → Bool) : List Nat :=
  (List.range relayPairs.length).takeWhile (fun k => !stop k)

/-- Progress order on observable panel snapshots. -/
def progLeP (x y : PanelSession) : Prop :=
  x.current_pair ≤ y.current_pair ∧ x.results.length ≤ y.results.length

theorem progLeP_refl (x : PanelSession) : progLeP x x := ⟨le_refl _, le_refl _⟩

theorem progLeP_trans {x y z : PanelSession} (h : progLeP x y) (h' : progLeP y z) :
    progLeP x z := ⟨le_trans h.1 h'.1, le_trans h.2 h'.2⟩

instance : IsTrans PanelSession progLeP := ⟨fun _ _ _ => progLeP_trans⟩

instance : IsRefl PanelSession progLeP := ⟨progLeP_refl⟩

/-- Loop invariant of the panel worker, mirroring `ChainInv`. -/
def PanelInv (prompt : String) (oracle : Nat → ApiResp) (a : Nat) (e : PanelExec) : Prop :=
  e.session.current_pair = a ∧
  e.session.results = (List.range a).map (mkPairResultAt prompt oracle) ∧
  List.Chain' progLeP e.trace ∧
  (∀ x ∈ e.trace.getLast?, progLeP x e.session)

/-- Session fields the panel loop leaves untouched. -/
def panelFrame (s s' : PanelSession) : Prop :=
  s'.status = s.status ∧ s'.mode = s.mode ∧ s'.prompt = s.prompt ∧
  s'.total_pairs = s.total_pairs ∧ s'.completed_at = s.completed_at

theorem panelFrame_refl (s : PanelSession) : panelFrame s s := ⟨rfl, rfl, rfl, rfl, rfl⟩

theorem panelFrame_trans {s t u : PanelSession} (h : panelFrame s t) (h' : panelFrame t u) :
    panelFrame s u := by
  obtain ⟨a1, a2, a3, a4, a5⟩ := h
  obtain ⟨b1, b2, b3, b4, b5⟩ := h'
  exact ⟨b1.trans a1, b2.trans a2, b3.trans a3, b4.trans a4, b5.trans a5⟩

theorem panelStepExec_inv (prompt : String) (oracle : Nat → ApiResp) (k : Nat)
    (e : PanelExec) (h : PanelInv prompt oracle k e) :
    PanelInv prompt oracle (k + 1) (panelStepExec prompt oracle k e) ∧
    panelFrame e.session (panelStepExec prompt oracle k e).session := by
  obtain ⟨h1, h2, h3, h4⟩ := h
  refine ⟨⟨?_, ?_, ?_, ?_⟩, ?_⟩
  · simp [panelStepExec]
  · simp [panelStepExec, h2, List.range_succ]
  · have hlast : ∀ x ∈ e.trace.getLast?,
        progLeP x { e.session with current_pair := k + 1 } := by
      intro x hx
      exact progLeP_trans (h4 x hx) ⟨by simp [h1], by simp⟩
    simp only [panelStepExec]
    rw [List.chain'_append]
    refine ⟨h3, ?_, ?_⟩
    · refine List.chain'_cons.2 ⟨⟨le_refl _, le_refl _⟩,
        List.chain'_cons.2 ⟨⟨le_refl _, ?_⟩, List.chain'_singleton _⟩⟩
      simp
    · intro x hx y hy
      simp only [List.head?_cons, Option.mem_def, Option.some.injEq] at hy
      subst hy
      exact hlast x hx
  · simp only [panelStepExec, getLast?_append_three]
    intro x hx
    simp only [Option.mem_def, Option.some.injEq] at hx
    subst hx
    exact progLeP_refl _
  · exact ⟨rfl, rfl, rfl, rfl, rfl⟩

theorem panelLoop_spec (prompt : String) (oracle : Nat → ApiResp) (stop : Nat → Bool) :
    ∀ (n a : Nat) (e : PanelExec), PanelInv prompt oracle a e →
      PanelInv prompt oracle
        (a + ((List.range' a n).takeWhile (fun k => !stop k)).length)
        (panelLoop prompt oracle stop (List.range' a n) e) ∧
      panelFrame e.session (panelLoop prompt oracle stop (List.range' a n) e).session := by
  intro n
  induction n with
  | zero =>
      intro a e h
      have hnil : List.range' a 0 = [] := rfl
      rw [hnil]
      exact ⟨by simpa [panelLoop] using h, panelFrame_refl _⟩
  | succ n ih =>
      intro a e h
      rw [List.range'_succ]
      by_cases hs : stop a
      · refine ⟨?_, ?_⟩
        · simpa [panelLoop, hs, List.takeWhile_cons] using h
        · simp only [panelLoop, hs, if_true]
          exact panelFrame_refl _
      · have hstep := panelStepExec_inv prompt oracle a e h
        have hrec := ih (a + 1) (panelStepExec prompt oracle a e) hstep.1
        simp only [panelLoop, hs, if_false, Bool.false_eq_true]
        rw [List.takeWhile_cons]
        simp only [hs, Bool.not_false, if_true]
        refine ⟨?_, panelFrame_trans hstep.2 hrec.2⟩
        have := hrec.1
        simpa [Nat.add_comm, Nat.add_assoc, Nat.add_left_comm] using this

theorem panelInitExec_inv (prompt : String) (oracle : Nat → ApiResp) :
    PanelInv prompt oracle 0 (panelInitExec prompt) := by
  refine ⟨rfl, rfl, ?_, ?_⟩
  · simp [panelInitExec, initPanelSession, List.chain'_cons, progLeP]
  · intro x hx
    simp only [panelInitExec, List.getLast?_cons, List.getLast?_singleton, Option.getD_some,
      Option.mem_def, Option.some.injEq] at hx
    subst hx
    exact progLeP_refl _

theorem panelFinishExec_spec (e : PanelExec)
    (hc : List.Chain' progLeP e.trace)
    (hlast : ∀ x ∈ e.trace.getLast?, progLeP x e.session) :
    (panelFinishExec e).session.status = "completed" ∧
    (panelFinishExec e).session.completed_at = true ∧
    (panelFinishExec e).session.results = e.session.results ∧
    List.Chain' progLeP (panelFinishExec e).trace := by
  refine ⟨rfl, rfl, rfl, ?_⟩
  simp only [panelFinishExec]
  rw [List.chain'_append]
  refine ⟨hc, ?_, ?_⟩
  · exact List.chain'_cons.2 ⟨⟨le_refl _, le_refl _⟩, List.chain'_singleton _⟩
  · intro x hx y hy
    simp only [List.head?_cons, Option.mem_def, Option.some.injEq] at hy
    subst hy
    exact progLeP_trans (hlast x hx) ⟨le_refl _, le_refl _⟩

/-- Full characterization of an `expert_panel_worker` execution: it always
ends with status `completed`, its stored results are exactly one pair
result per dispatched pair (each holding both agents' outcome texts,
whatever the upstream outcomes), and its snapshot trace is
progress-sorted. -/
theorem expert_panel_worker_spec (prompt : String) (oracle : Nat → ApiResp)
    (stop : Nat → Bool) :
    (expert_panel_worker prompt oracle stop).session.status = "completed" ∧
    (expert_panel_worker prompt oracle stop).session.completed_at = true ∧
    (expert_panel_worker prompt oracle stop).session.results
      = (List.range (panelDispatched stop).length).map (mkPairResultAt prompt oracle) ∧
    List.Chain' progLeP (expert_panel_worker prompt oracle stop).trace := by
  have h0 := panelInitExec_inv prompt oracle
  have hl := panelLoop_spec prompt oracle stop relayPairs.length 0 (panelInitExec prompt) h0
  rw [← List.range_eq_range'] at hl
  obtain ⟨⟨hca, hres, hchain, hlast⟩, _hframe⟩ := hl
  have hfin := panelFinishExec_spec
    (panelLoop prompt oracle stop (List.range relayPairs.length) (panelInitExec prompt))
    hchain hlast
  refine ⟨hfin.1, hfin.2.1, ?_, hfin.2.2.2⟩
  rw [show expert_panel_worker prompt oracle stop
      = panelFinishExec (panelLoop prompt oracle stop (List.range relayPairs.length)
          (panelInitExec prompt)) from rfl, hfin.2.2.1, hres]
  simp [panelDispatched]

/-! ## revolutionary_relay.py : HTTP-facing session operations -/

/-- Outcome of the `start-expert-panel` route: the session id of a newly
registered session, or the synchronous 400 rejection. -/
inductive StartPanelResult where
  | started (session_id : String)
  | badRequest (msg : String)
deriving DecidableEq, Repr

/-- `start_expert_panel()`: rejects a missing or empty (falsy) prompt with
a 400 before creating anything; otherwise registers a fresh session dict
and hands the prompt to the worker thread.  `active_sessions` is modelled
as an association list keyed by session id. -/
def start_expert_panel (store : List (String × PanelSession)) (newId : String)
    (prompt : Option String) : StartPanelResult × List (String × PanelSession) :=
  match prompt with
  | none => (.badRequest "Prompt is required", store)
  | some p =>
    if p = "" then (.badRequest "Prompt is required", store)
    else (.started newId, store ++ [(newId, initPanelSession p)])

/-- The `session_data` payload of the `session-status` route: both
pair-mode and chain-mode counters are reported, with `.get` defaults for
the fields the session's mode does not use. -/
structure SessionStatusView where
  mode : String
  status : String
  current_pair : Nat
  total_pairs : Nat
  current_agent : Nat
  total_agents : Nat
  results_count : Nat
  completed_at : Bool
deriving DecidableEq, Repr

/-- The status payload read off an expert-panel session dict. -/
def panelStatusView (s : PanelSession) : SessionStatusView :=
  { mode := s.mode
    status := s.status
    current_pair := s.current_pair
    total_pairs := s.total_pairs
    current_agent := 0
    total_agents := 0
    results_count := s.results.length
    completed_at := s.completed_at }

/-- The status payload read off a conference-chain session dict. -/
def chainStatusView (s : ChainSession) : SessionStatusView :=
  { mode := s.mode
    status := s.status
    current_pair := 0
    total_pairs := 0
    current_agent := s.current_agent
    total_agents := s.total_agents
    results_count := s.results.length
    completed_at := s.completed_at }

/-- Outcome of the `session-status` route. -/
inductive GetStatusResult where
  | notFound
  | ok (v : SessionStatusView)
deriving DecidableEq, Repr

/-- `get_session_status(session_id)` over a store of panel sessions:
404 for an unknown id, otherwise the status payload. -/
def get_session_status (store : List (String × PanelSession)) (sid : String) :
    GetStatusResult :=
  match List.lookup sid store with
  | none => .notFound
  | some s => .ok (panelStatusView s)

/-- `stop_session`'s session mutation: `active_sessions[session_id]['status']
= 'stopped'`, performed unconditionally on whatever status the session
currently has; no other field is touched. -/
def stop_session_update (s : ChainSession) : ChainSession := { s with status := "stopped" }

/-- `stop_session`'s mutation on an expert-panel session. -/
def stop_session_updateP (s : PanelSession) : PanelSession := { s with status := "stopped" }

/-- Outcome of the `stop-session` route. -/
inductive StopResult where
  | notFound
  | stopped (session_id : String)
deriving DecidableEq, Repr

/-- `stop_session(session_id)` over a store of chain sessions: 404 for an
unknown id, otherwise the in-place status overwrite. -/
def stop_session (store : List (String × ChainSession)) (sid : String) :
    StopResult × List (String × ChainSession) :=
  match List.lookup sid store with
  | none => (.notFound, store)
  | some _ =>
    (.stopped sid,
      store.map (fun p => if p.1 = sid then (p.1, stop_session_update p.2) else p))

/-! ## pipelines.py : raising invoker, pair debates, sequential chain -/

/-- `call_llm(model, messages, ...)` of `pipelines.py`.  Unlike
`call_openrouter_api` it propagates every failure to its caller: a missing
`OPENROUTER_API_KEY` raises `RuntimeError`, a non-2xx status raises via
`raise_for_status()`, a transport error or malformed payload raises as
well.  Only a well-formed 200 response returns text. -/
def call_llm (apiKey : String) (model : String) (messages : List Msg) (resp : ApiResp) :
    Except String String :=
  match model, messages, resp with
  | _, _, _ =>
    if apiKey = "" then .error "OPENROUTER_API_KEY missing"
    else
      match resp with
      | .ok c => .ok c
      | .httpError code body => .error ("HTTP Error " ++ toString code ++ ": " ++ body)
      | .exn m => .error m

/-- One entry of the `traces` list returned by the pipelines. -/
structure TraceEntry where
  agent : String
  last_text : String
deriving DecidableEq, Repr

/-- One bullet of the aggregator prompt: `f"- [{t['agent']}] {t['last_text'][:900]}"`. -/
def summaryBullet (t : TraceEntry) : String :=
  "- [" ++ t.agent ++ "] " ++ t.last_text.take 900

/-- The aggregator's user prompt built by `summarize_with_gpt5`. -/
def summarizeMsg (title prompt : String) (traces : List TraceEntry) : String :=
  "You are a senior editor. Title: " ++ title ++ "\nOriginal prompt:\n" ++ prompt ++
    "\n\nBelow are outputs from multiple agents. Remove redundancy, resolve conflicts, and produce a concise, well-structured report with sections, bullet points, and a short exec summary.:\n\n" ++
    String.intercalate "\n" (traces.map summaryBullet)

/-- `summarize_with_gpt5(title, prompt, traces, gpt5_model)`: one more
`call_llm` invocation, so its failure also raises. -/
def summarize_with_gpt5 (apiKey : String) (title prompt : String) (traces : List TraceEntry)
    (gpt5_model : String) (resp : ApiResp) : Except String String :=
  call_llm apiKey gpt5_model
    [⟨"system", "Concise, structured, no fluff."⟩,
     ⟨"user", summarizeMsg title prompt traces⟩] resp

/-- Python's `str.strip()`: leading and trailing whitespace removed. -/
def pyStrip (s : String) : String :=
  String.mk (((s.data.dropWhile Char.isWhitespace).reverse.dropWhile
    Char.isWhitespace).reverse)

/-- `int(data.get("rounds") or 3)`: an absent or falsy (0) rounds field
becomes 3. -/
def effRounds : Option Nat → Nat
  | none => 3
  | some 0 => 3
  | some n => n

/-- The round loop of `run_pair`: within a pair the two legs are strictly
sequential; the growing message list carries both sides' turns.  The first
raised failure aborts the whole pair. -/
def run_pair_loop (apiKey ai bi : String) (oracle : Nat → ApiResp) :
    Nat → Nat → List Msg → String → String → Except String (String × String)
  | 0, _, _, aL, bL => .ok (aL, bL)
  | n + 1, r, msgs, _aL, _bL =>
    match call_llm apiKey ai msgs (oracle (2 * r)) with
    | .error e => .error e
    | .ok aL' =>
      let msgs1 := msgs ++
        [⟨"assistant", aL'⟩, ⟨"user", "Respond to the above, challenge assumptions briefly."⟩]
      match call_llm apiKey bi msgs1 (oracle (2 * r + 1)) with
      | .error e => .error e
      | .ok bL' =>
        run_pair_loop apiKey ai bi oracle n (r + 1)
          (msgs1 ++ [⟨"assistant", bL'⟩, ⟨"user", "Short rebuttal to the last point."⟩])
          aL' bL'

/-- `run_pair(ai, bi)`: on success, exactly the two entries
`{agent: ai, last_text: a_last}` and `{agent: bi, last_text: b_last}`. -/
def run_pair (apiKey sysmsg prompt ai bi : String) (rounds : Nat) (oracle : Nat → ApiResp) :
    Except String (List TraceEntry) :=
  (run_pair_loop apiKey ai bi oracle rounds 0 [⟨"system", sysmsg⟩, ⟨"user", prompt⟩] "" "").map
    (fun ab => [⟨ai, ab.1⟩, ⟨bi, ab.2⟩])

/-- `futs = [ex.submit(run_pair, a, b) for a, b in pairs[:10]]`: the list of
pair futures in submission order, pair `i` seeing upstream oracle
`oracle i`. -/
def pairFutures (apiKey sysmsg prompt : String) (rounds : Nat) (oracle : Nat → Nat → ApiResp) :
    List (String × String) → Nat → List (Except String (List TraceEntry))
  | [], _ => []
  | p :: rest, i =>
    run_pair apiKey sysmsg prompt p.1 p.2 rounds (oracle i) ::
      pairFutures apiKey sysmsg prompt rounds oracle rest (i + 1)

/-- The `for f in as_completed(futs)` collection loop: futures are drained
in completion order (`order` lists the pair indices in the order their
futures complete); the first failed future re-raises inside the route and
aborts the collection. -/
def collectFutures (futures : List (Except String (List TraceEntry))) :
    List Nat → Except String (List TraceEntry)
  | [] => .ok []
  | i :: rest =>
    match futures.getD i (.ok []) with
    | .error e => .error e
    | .ok items =>
      match collectFutures futures rest with
      | .error e => .error e
      | .ok acc => .ok (items ++ acc)

/-- Request body of `POST /api/pipelines/pairs-run`. -/
structure PairsBody where
  prompt : String
  pairs : List (String × String)
  rounds : Option Nat
  system : Option String
  aggregator_model : Option String
deriving Repr

/-- Response of a pipelines route: the 200 payload, the synchronous 400
validation rejection, or the 500 produced by Flask when an invocation
failure propagates out of the handler. -/
inductive PipeResponse where
  | ok (traces : List TraceEntry) (report : String)
  | invalid (msg : String)
  | serverError (msg : String)
deriving DecidableEq, Repr

/-- `pairs_run()`: validation, parallel pair debates, collection in
completion order, then the aggregator pass.  `oracle i` is the upstream
oracle seen by pair `i`; `aggResp` answers the aggregator's call. -/
def pairs_run (apiKey : String) (body : PairsBody) (oracle : Nat → Nat → ApiResp)
    (aggResp : ApiResp) (order : List Nat) : PipeResponse :=
  let prompt := pyStrip body.prompt
  let sysmsg := body.system.getD "Be rigorous, cite assumptions, keep responses tight."
  let agg := body.aggregator_model.getD "openai/gpt-5"
  if prompt = "" ∨ body.pairs = [] then .invalid "prompt and pairs[] required"
  else
    let used := body.pairs.take 10
    let futures := pairFutures apiKey sysmsg prompt (effRounds body.rounds) oracle used 0
    match collectFutures futures order with
    | .error e => .serverError e
    | .ok traces =>
      match summarize_with_gpt5 apiKey "Pairs Debate Report" prompt traces agg aggResp with
      | .error e => .serverError e
      | .ok report => .ok traces report

/-- Request body of `POST /api/pipelines/chain-run`. -/
structure ChainBody where
  prompt : String
  agents : List String
  system : Option String
  aggregator_model : Option String
deriving Repr

/-- The relay tag `chain_run` sends to every agent: the initial prompt plus
only the immediately preceding reply (`prev or '[none]'`). -/
def chain_tag (prompt prev : String) : String :=
  "Initial prompt (do not lose context):\n" ++ prompt ++
    "\n\nPrevious reply (if any):\n" ++ (if prev = "" then "[none]" else prev) ++
    "\n\nYour task: advance the solution. Be incremental, avoid restating prior content."

/-- The sequential loop of `chain_run` over the enumerated agent list,
also returning the log of `(model, user message)` invocations actually
performed (the failing one included). -/
def chain_run_loop (apiKey sysmsg prompt : String) (oracle : Nat → ApiResp) :
    List (Nat × String) → String → List TraceEntry →
    Except String (List TraceEntry) × List (String × String)
  | [], _prev, traces => (.ok traces, [])
  | (i, m) :: rest, prev, traces =>
    let tag := chain_tag prompt prev
    match call_llm apiKey m [⟨"system", sysmsg⟩, ⟨"user", tag⟩] (oracle i) with
    | .error e => (.error e, [(m, tag)])
    | .ok out =>
      let r := chain_run_loop apiKey sysmsg prompt oracle rest out (traces ++ [⟨m, out⟩])
      (r.1, (m, tag) :: r.2)

/-- `chain_run()`: validation, the strictly sequential relay, then the
aggregator pass.  Returns the response together with the invocation log. -/
def chain_run (apiKey : String) (body : ChainBody) (oracle : Nat → ApiResp)
    (aggResp : ApiResp) : PipeResponse × List (String × String) :=
  let prompt := pyStrip body.prompt
  let sysmsg := body.system.getD "You are part of a relay; be precise and cite assumptions."
  let agg := body.aggregator_model.getD "openai/gpt-5"
  if prompt = "" ∨ body.agents = [] then (.invalid "prompt and agents[] required", [])
  else
    let r := chain_run_loop apiKey sysmsg prompt oracle body.agents.enum "" []
    match r.1 with
    | .error e => (.serverError e, r.2)
    | .ok traces =>
      match summarize_with_gpt5 apiKey "Conference Chain Report" prompt traces agg aggResp with
      | .error e => (.serverError e, r.2)
      | .ok report => (.ok traces report, r.2)

/-! ## Supporting facts about the pipelines -/

theorem run_pair_ok_length (apiKey sysmsg prompt ai bi : String) (rounds : Nat)
    (oracle : Nat → ApiResp) (l : List TraceEntry)
    (h : run_pair apiKey sysmsg prompt ai bi rounds oracle = .ok l) : l.length = 2 := by
  simp only [run_pair] at h
  cases hr : run_pair_loop apiKey ai bi oracle rounds 0
      [⟨"system", sysmsg⟩, ⟨"user", prompt⟩] "" "" with
  | error e => rw [hr] at h; simp [Except.map] at h
  | ok ab =>
      rw [hr] at h
      simp only [Except.map, Except.ok.injEq] at h
      rw [← h]
      rfl

theorem pairFutures_length (apiKey sysmsg prompt : String) (rounds : Nat)
    (oracle : Nat → Nat → ApiResp) :
    ∀ (l : List (String × String)) (i0 : Nat),
      (pairFutures apiKey sysmsg prompt rounds oracle l i0).length = l.length := by
  intro l
  induction l with
  | nil => intro i0; rfl
  | cons p rest ih => intro i0; simp [pairFutures, ih]

theorem pairFutures_mem (apiKey sysmsg prompt : String) (rounds : Nat)
    (oracle : Nat → Nat → ApiResp) :
    ∀ (l : List (String × String)) (i0 : Nat)
      (f : Except String (List TraceEntry)),
      f ∈ pairFutures apiKey sysmsg prompt rounds oracle l i0 →
      ∃ i p, f = run_pair apiKey sysmsg prompt (Prod.fst p) (Prod.snd p) rounds (oracle i) := by
  intro l
  induction l with
  | nil => intro i0 f hf; simp [pairFutures] at hf
  | cons p rest ih =>
      intro i0 f hf
      simp only [pairFutures, List.mem_cons] at hf
      cases hf with
      | inl h => exact ⟨i0, p, h⟩
      | inr h => exact ih (i0 + 1) f h

theorem collectFutures_ok_length (futures : List (Except String (List TraceEntry))) :
    ∀ (order : List Nat) (T : List TraceEntry),
      (∀ i ∈ order, ∀ l, futures.getD i (Except.ok []) = .ok l → l.length = 2) →
      collectFutures futures order = .ok T → T.length = 2 * order.length := by
  intro order
  induction order with
  | nil =>
      intro T _ h
      simp only [collectFutures, Except.ok.injEq] at h
      rw [← h]; rfl
  | cons i rest ih =>
      intro T hall h
      simp only [collectFutures] at h
      cases hfi : futures.getD i (Except.ok []) with
      | error e => rw [hfi] at h; cases h
      | ok items =>
          rw [hfi] at h
          cases hrec : collectFutures futures rest with
          | error e => rw [hrec] at h; cases h
          | ok acc =>
              rw [hrec] at h
              simp only [Except.ok.injEq] at h
              have hlen2 := hall i (List.mem_cons_self i rest) items hfi
              have hrl := ih acc (fun j hj l' hl' => hall j (List.mem_cons_of_mem i hj) l' hl') hrec
              rw [← h, List.length_append, hlen2, hrl, List.length_cons]
              ring

theorem getD_mem_of_lt {α : Type} (l : List α) (i : Nat) (d : α) (h : i < l.length) :
    l.getD i d ∈ l := by
  rw [List.getD_eq_getElem l d h]
  exact List.getElem_mem h

/-! ## String containment -/

/-- `t` occurs verbatim as a contiguous substring of `s`. -/
def containsStr (s t : String) : Prop := ∃ p q : String, s = p ++ t ++ q

theorem containsStr_length {s t : String} (h : containsStr s t) : t.length ≤ s.length := by
  obtain ⟨p, q, rfl⟩ := h
  rw [String.length_append, String.length_append]
  omega

/-! ## conference_system.py : conferences, rotation, synthesis -/

/-- One entry of the `CONFERENCE_AGENTS` table. -/
structure ConfAgent where
  name : String
  model : String
  role : String
  system_prompt : String
deriving DecidableEq, Repr

/-- The static `CONFERENCE_AGENTS` dict of `conference_system.py`, as an
association list in declaration order. -/
def CONFERENCE_AGENTS : List (String × ConfAgent) := [
  ("moderator", ⟨"Conference Moderator", "openai/gpt-4o",
    "Facilitates discussion, manages flow, synthesizes insights",
    "You are a skilled conference moderator. Guide discussions, ensure all perspectives are heard, and synthesize key insights."⟩),
  ("strategic_analyst", ⟨"Strategic Analyst", "openai/gpt-4-turbo",
    "Strategic planning and business analysis",
    "You are a strategic analyst. Provide strategic insights, identify opportunities, and analyze business implications."⟩),
  ("technical_expert", ⟨"Technical Expert", "deepseek/deepseek-r1",
    "Technical feasibility and implementation",
    "You are a technical expert. Assess technical feasibility, provide implementation guidance, and identify technical challenges."⟩),
  ("creative_director", ⟨"Creative Director", "meta-llama/llama-3.3-70b-instruct",
    "Creative solutions and innovation",
    "You are a creative director. Generate innovative ideas, think outside the box, and provide creative solutions."⟩),
  ("risk_assessor", ⟨"Risk Assessor", "mistralai/mistral-large",
    "Risk analysis and mitigation strategies",
    "You are a risk assessment specialist. Identify potential risks, analyze their impact, and suggest mitigation strategies."⟩),
  ("market_researcher", ⟨"Market Researcher", "google/gemini-2.0-flash-exp",
    "Market analysis and consumer insights",
    "You are a market researcher. Provide market insights, analyze trends, and assess consumer behavior."⟩),
  ("financial_advisor", ⟨"Financial Advisor", "anthropic/claude-3.5-sonnet",
    "Financial planning and analysis",
    "You are a financial advisor. Analyze financial implications, provide cost-benefit analysis, and suggest financial strategies."⟩),
  ("legal_counsel", ⟨"Legal Counsel", "cohere/command-r-plus",
    "Legal compliance and regulatory guidance",
    "You are legal counsel. Assess legal implications, ensure compliance, and identify regulatory considerations."⟩),
  ("operations_manager", ⟨"Operations Manager", "perplexity/llama-3.1-sonar-large-128k-online",
    "Operational efficiency and process optimization",
    "You are an operations manager. Focus on operational efficiency, process optimization, and implementation logistics."⟩),
  ("customer_advocate", ⟨"Customer Advocate", "qwen/qwen-2.5-72b-instruct",
    "Customer experience and satisfaction",
    "You are a customer advocate. Represent customer interests, focus on user experience, and ensure customer satisfaction."⟩)]

/-- One entry of a conference's `messages` list. -/
structure ConfMessage where
  round : Nat
  speaker : String
  speaker_name : String
  message : String
deriving DecidableEq, Repr

/-- A conference session dict. -/
structure Conference where
  id : String
  topic : String
  ctype : String
  participants : List String
  rounds : Nat
  current_round : Nat
  messages : List ConfMessage
  status : String
  synthesis : Option String
  synthesized_at : Bool
deriving DecidableEq, Repr

/-- Replace the value stored under `k`. -/
def storeUpdate {α : Type} (store : List (String × α)) (k : String) (v : α) :
    List (String × α) :=
  store.map (fun p => if p.1 = k then (p.1, v) else p)

/-- Outcome of the conference `start` route. -/
inductive StartConfResult where
  | badRequest (msg : String)
  | success (conference : Conference)
  | serverError (msg : String)
deriving DecidableEq, Repr

/-- `start_conference()`: a missing or empty topic is rejected with a 400;
otherwise the conference is registered with the client-supplied
participants list — `data.get('participants', all-agent default)` uses the
client's value whenever the key is present, an explicitly empty list
included — and the moderator's opening call is attempted.  A non-200
opening response is silently skipped; a raised exception yields a 500,
the conference staying registered. -/
def start_conference (topic : Option String) (participants : Option (List String))
    (ctype : Option String) (rounds : Option Nat) (newId : String) (api : ApiResp)
    (store : List (String × Conference)) : StartConfResult × List (String × Conference) :=
  match topic with
  | none => (.badRequest "Conference topic is required", store)
  | some t =>
    if t = "" then (.badRequest "Conference topic is required", store)
    else
      let conf0 : Conference :=
        { id := newId
          topic := t
          ctype := ctype.getD "roundtable"
          participants := participants.getD (CONFERENCE_AGENTS.map (·.1))
          rounds := rounds.getD 3
          current_round := 0
          messages := []
          status := "active"
          synthesis := none
          synthesized_at := false }
      match api with
      | .ok content =>
        let conf1 := { conf0 with
          messages := [⟨0, "moderator", "Conference Moderator", content⟩] }
        (.success conf1, store ++ [(newId, conf1)])
      | .httpError _ _ => (.success conf0, store ++ [(newId, conf0)])
      | .exn m => (.serverError m, store ++ [(newId, conf0)])

/-- The default-rotation computation of `continue_conference` when no
participant is supplied: `participants[current_round % len(participants)]`.
With an empty participants list the modulo raises `ZeroDivisionError`,
which the route's blanket handler turns into a 500. -/
def default_rotation (c : Conference) : Except String String :=
  if c.participants.length = 0 then .error "integer division or modulo by zero"
  else .ok (c.participants.getD (c.current_round % c.participants.length) "")

/-- Outcome of the conference `continue` route.  `ok` carries the
conference as returned plus the `latest_message` text (`'Response failed'`
when the upstream status was non-200). -/
inductive ContinueResult where
  | notFound
  | notActive
  | invalidParticipant
  | rotationError (msg : String)
  | ok (conference : Conference) (latest : String)
  | serverError (msg : String)
deriving DecidableEq, Repr

/-- `continue_conference(conference_id)`. -/
def continue_conference (store : List (String × Conference)) (cid : String)
    (participant : Option String) (api : ApiResp) :
    ContinueResult × List (String × Conference) :=
  match List.lookup cid store with
  | none => (.notFound, store)
  | some conf =>
    if conf.status ≠ "active" then (.notActive, store)
    else
      match (match participant with
             | none => default_rotation conf
             | some p => if p = "" then default_rotation conf else .ok p) with
      | .error e => (.rotationError e, store)
      | .ok next =>
        match List.lookup next CONFERENCE_AGENTS with
        | none => (.invalidParticipant, store)
        | some agent =>
          match api with
          | .ok content =>
            let conf1 := { conf with
              messages := conf.messages ++ [⟨conf.current_round, next, agent.name, content⟩]
              current_round := conf.current_round + 1 }
            let conf2 :=
              if conf.rounds * conf.participants.length ≤ conf1.current_round
              then { conf1 with status := "completed" } else conf1
            (.ok conf2 content, storeUpdate store cid conf2)
          | .httpError _ _ => (.ok conf "Response failed", store)
          | .exn m => (.serverError m, store)

/-- Outcome of the conference `synthesize` route: on any reachable
conference it answers 200, carrying either the model's synthesis or the
literal `'Synthesis failed'`, plus the conference stats; only a raised
exception produces a 500. -/
inductive SynthResult where
  | notFound
  | success (synthesis : String) (total_messages participants rounds_completed : Nat)
  | serverError (msg : String)
deriving DecidableEq, Repr

/-- `synthesize_conference(conference_id)`: a 200 upstream response is
stored on the conference and returned; a non-200 response leaves the
conference untouched and reports `'Synthesis failed'` alongside the stats
of the still-available messages. -/
def synthesize_conference (store : List (String × Conference)) (cid : String)
    (api : ApiResp) : SynthResult × List (String × Conference) :=
  match List.lookup cid store with
  | none => (.notFound, store)
  | some conf =>
    match api with
    | .ok content =>
      let conf1 := { conf with synthesis := some content, synthesized_at := true }
      (.success content conf.messages.length conf.participants.length conf.current_round,
        storeUpdate store cid conf1)
    | .httpError _ _ =>
      (.success "Synthesis failed" conf.messages.length conf.participants.length
        conf.current_round, store)
    | .exn m => (.serverError m, store)

/-! ## Claim support -/

theorem dispatched_eq_range (p : Nat → Bool) (total : Nat) :
    (List.range total).takeWhile p = List.range ((List.range total).takeWhile p).length := by
  have hpre : (List.range total).takeWhile p <+: List.range total := List.takeWhile_prefix p
  have hlen : ((List.range total).takeWhile p).length ≤ total := by
    simpa using hpre.length_le
  calc (List.range total).takeWhile p
      = (List.range total).take ((List.range total).takeWhile p).length :=
        List.prefix_iff_eq_take.mp hpre
    _ = List.range (min ((List.range total).takeWhile p).length total) := List.take_range _ _
    _ = List.range ((List.range total).takeWhile p).length := by rw [Nat.min_eq_left hlen]

theorem chainDispatched_eq_range (stop : Nat → Bool) (total : Nat) :
    chainDispatched stop total = List.range (chainDispatched stop total).length :=
  dispatched_eq_range _ total

theorem panelDispatched_eq_range (stop : Nat → Bool) :
    panelDispatched stop = List.range (panelDispatched stop).length :=
  dispatched_eq_range _ _

theorem chain_invocations_getElem? (prompt : String) (max_agents : Nat)
    (oracle : Nat → ApiResp) (stop : Nat → Bool) (k : Nat)
    (hk : k < (chainDispatched stop (min max_agents RELAY_AGENTS.length)).length) :
    (conference_chain_worker prompt max_agents oracle stop).invocations[k]?
      = some (chainInvAt prompt oracle k) := by
  rw [(conference_chain_worker_spec prompt max_agents oracle stop).2.2.2.1,
    chainDispatched_eq_range, List.getElem?_map, List.getElem?_range hk]
  rfl

/-- The per-agent result records of a panel session, two per stored pair. -/
def panelAgentResults (s : PanelSession) : List PairAgentOut :=
  s.results.flatMap (fun r => [r.agent_a, r.agent_b])

theorem flatPairs_length (l : List PairResult) :
    (l.flatMap (fun r => [r.agent_a, r.agent_b])).length = 2 * l.length := by
  induction l with
  | nil => rfl
  | cons r rest ih => simp [ih]; ring

theorem panelAgentResults_length (s : PanelSession) :
    (panelAgentResults s).length = 2 * s.results.length :=
  flatPairs_length s.results

theorem chain_run_loop_log_head (apiKey sysmsg prompt : String) (oracle : Nat → ApiResp)
    (i : Nat) (m : String) (rest : List (Nat × String)) (prev : String)
    (traces : List TraceEntry) :
    (chain_run_loop apiKey sysmsg prompt oracle ((i, m) :: rest) prev traces).2[0]?
      = some (m, chain_tag prompt prev) := by
  simp only [chain_run_loop]
  cases hc : call_llm apiKey m
      [⟨"system", sysmsg⟩, ⟨"user", chain_tag prompt prev⟩] (oracle i) with
  | error e => simp [hc]
  | ok out => simp [hc]

theorem chain_run_loop_log_second (apiKey sysmsg prompt : String) (oracle : Nat → ApiResp)
    (i : Nat) (m : String) (j : Nat) (m' : String) (rest : List (Nat × String))
    (prev : String) (traces : List TraceEntry) (out : String)
    (h : call_llm apiKey m
      [⟨"system", sysmsg⟩, ⟨"user", chain_tag prompt prev⟩] (oracle i) = .ok out) :
    (chain_run_loop apiKey sysmsg prompt oracle
        ((i, m) :: (j, m') :: rest) prev traces).2[1]?
      = some (m', chain_tag prompt out) := by
  simp only [chain_run_loop]
  rw [h]
  simp only [List.getElem?_cons_succ]
  exact chain_run_loop_log_head apiKey sysmsg prompt oracle j m' rest out
    (traces ++ [⟨m, out⟩])

theorem chain_run_log (apiKey : String) (body : ChainBody) (oracle : Nat → ApiResp)
    (aggResp : ApiResp) (hp : pyStrip body.prompt ≠ "") (ha : body.agents ≠ []) :
    (chain_run apiKey body oracle aggResp).2
      = (chain_run_loop apiKey
          (body.system.getD "You are part of a relay; be precise and cite assumptions.")
          (pyStrip body.prompt) oracle body.agents.enum "" []).2 := by
  simp only [chain_run]
  rw [if_neg (by simp [hp, ha])]
  cases h1 : (chain_run_loop apiKey
      (body.system.getD "You are part of a relay; be precise and cite assumptions.")
      (pyStrip body.prompt) oracle body.agents.enum "" []).1 with
  | error e => simp [h1]
  | ok traces =>
      cases h2 : summarize_with_gpt5 apiKey "Conference Chain Report" (pyStrip body.prompt)
          traces (body.aggregator_model.getD "openai/gpt-5") aggResp with
      | error e => simp [h1, h2]
      | ok report => simp [h1, h2]

/-- The chain template contains the original prompt verbatim. -/
theorem chainTemplate_contains_prompt (prompt latest : String) :
    containsStr (chainTemplate prompt latest) prompt := by
  refine ⟨"ORIGINAL PROMPT: ",
    "\n\nPREVIOUS INSIGHT: " ++ latest ++ "\n\nBuild upon this insight with your expertise:",
    ?_⟩
  simp only [chainTemplate, String.append_assoc]

/-- The chain template contains the previous reply verbatim. -/
theorem chainTemplate_contains_latest (prompt latest : String) :
    containsStr (chainTemplate prompt latest) latest := by
  refine ⟨"ORIGINAL PROMPT: " ++ prompt ++ "\n\nPREVIOUS INSIGHT: ",
    "\n\nBuild upon this insight with your expertise:", ?_⟩
  simp only [chainTemplate, String.append_assoc]

/-- The pipelines relay tag contains the original prompt verbatim. -/
theorem chain_tag_contains_prompt (prompt prev : String) :
    containsStr (chain_tag prompt prev) prompt := by
  refine ⟨"Initial prompt (do not lose context):\n",
    "\n\nPrevious reply (if any):\n" ++ (if prev = "" then "[none]" else prev) ++
      "\n\nYour task: advance the solution. Be incremental, avoid restating prior content.",
    ?_⟩
  simp only [chain_tag, String.append_assoc]

/-- For a non-empty previous reply, the pipelines relay tag contains it
verbatim. -/
theorem chain_tag_contains_prev (prompt prev : String) (h : prev ≠ "") :
    containsStr (chain_tag prompt prev) prev := by
  refine ⟨"Initial prompt (do not lose context):\n" ++ prompt ++ "\n\nPrevious reply (if any):\n",
    "\n\nYour task: advance the solution. Be incremental, avoid restating prior content.", ?_⟩
  simp only [chain_tag, if_neg h, String.append_assoc]

theorem pairs_run_ok_traces_length (apiKey : String) (body : PairsBody)
    (oracle : Nat → Nat → ApiResp) (aggResp : ApiResp) (order : List Nat)
    (traces : List TraceEntry) (report : String)
    (hperm : order.Perm (List.range (body.pairs.take 10).length))
    (h : pairs_run apiKey body oracle aggResp order = .ok traces report) :
    traces.length = 2 * (body.pairs.take 10).length := by
  simp only [pairs_run] at h
  by_cases hv : pyStrip body.prompt = "" ∨ body.pairs = []
  · rw [if_pos hv] at h; cases h
  · rw [if_neg hv] at h
    split at h
    next e heq => cases h
    next T heq =>
      split at h
      next e2 heq2 => cases h
      next rep heq2 =>
          simp only [PipeResponse.ok.injEq] at h
          obtain ⟨hT, _⟩ := h
          subst hT
          have hall : ∀ i ∈ order, ∀ l,
                (pairFutures apiKey
                  (body.system.getD "Be rigorous, cite assumptions, keep responses tight.")
                  (pyStrip body.prompt) (effRounds body.rounds) oracle
                  (body.pairs.take 10) 0).getD i (Except.ok []) = .ok l →
                l.length = 2 := by
            intro i hi l hl
            have hin : i < (body.pairs.take 10).length := by
              have := (hperm.mem_iff).mp hi
              simpa using this
            have hflen : i < (pairFutures apiKey
                (body.system.getD "Be rigorous, cite assumptions, keep responses tight.")
                (pyStrip body.prompt) (effRounds body.rounds) oracle
                (body.pairs.take 10) 0).length := by
              rw [pairFutures_length]; exact hin
            have hmem := getD_mem_of_lt _ i (Except.ok []) hflen
            obtain ⟨i', p, hp⟩ := pairFutures_mem apiKey _ _ _ _ _ _ _ hmem
            rw [hp] at hl
            exact run_pair_ok_length _ _ _ _ _ _ _ _ hl
          have := collectFutures_ok_length _ order T hall heq
          rw [this, hperm.length_eq, List.length_range]

/-- C1 counterexample: in the pipelines pair runner (`pairs_run` built on
the raising `call_llm`), a single failed invocation is not captured as a
per-agent Result of a completed run — it propagates out of the route, which
answers a 500 (`serverError`) instead of an overall completed status. -/
theorem C1_counterexample :
    pairs_run "key" ⟨"X", [("a", "b")], some 1, none, none⟩
        (fun _ _ => ApiResp.exn "boom") (.ok "report") [0]
      = .serverError "boom" ∧
    ∀ (traces : List TraceEntry) (report : String),
      pairs_run "key" ⟨"X", [("a", "b")], some 1, none, none⟩
          (fun _ _ => ApiResp.exn "boom") (.ok "report") [0]
        ≠ .ok traces report := by
  refine ⟨by decide, ?_⟩
  intro traces report hcontra
  rw [show pairs_run "key" ⟨"X", [("a", "b")], some 1, none, none⟩
      (fun _ _ => ApiResp.exn "boom") (.ok "report") [0] = .serverError "boom"
    by decide] at hcontra
  cases hcontra

/-- C1 (amended): in the relay workers every invocation outcome — upstream
failures included, since `call_openrouter_api` renders them as text and
never raises — is recorded as that unit's stored result, and both workers
always drive their session to overall status `completed` after collecting
every dispatched unit, for arbitrary upstream outcomes (so also when every
invocation failed).  The property does not extend to the pipelines routes,
where one raised failure aborts the run (see the counterexample). -/
theorem C1_amended :
    ∀ (prompt : String) (max_agents : Nat) (oracle : Nat → ApiResp) (stop : Nat → Bool),
      (conference_chain_worker prompt max_agents oracle stop).session.status = "completed" ∧
      (expert_panel_worker prompt oracle stop).session.status = "completed" ∧
      (conference_chain_worker prompt max_agents oracle stop).session.results
        = (List.range (chainDispatched stop (min max_agents RELAY_AGENTS.length)).length).map
            (mkChainResultAt prompt oracle) ∧
      (expert_panel_worker prompt oracle stop).session.results
        = (List.range (panelDispatched stop).length).map (mkPairResultAt prompt oracle) := by
  intro prompt max_agents oracle stop
  exact ⟨(conference_chain_worker_spec prompt max_agents oracle stop).1,
    (expert_panel_worker_spec prompt oracle stop).1,
    (conference_chain_worker_spec prompt max_agents oracle stop).2.2.1,
    (expert_panel_worker_spec prompt oracle stop).2.2.1⟩

/-- C2 (confirmed): a completed fan-out run stores exactly one result per
dispatched unit.  The panel worker always finishes `completed` with its
result list exactly mirroring the dispatched pairs — two per-agent records
per pair, so the per-agent result count equals the number of agents
dispatched, whatever the upstream outcomes; and the worker is sequential,
so the `completed` status is only written after every dispatched
invocation's outcome is stored.  In the pipelines pair runner, a completed
(`ok`) run likewise carries exactly two trace entries per submitted pair,
for any completion order of the futures. -/
theorem C2_fanout_counts :
    (∀ (prompt : String) (oracle : Nat → ApiResp) (stop : Nat → Bool),
      (expert_panel_worker prompt oracle stop).session.status = "completed" ∧
      (expert_panel_worker prompt oracle stop).session.results
        = (List.range (panelDispatched stop).length).map (mkPairResultAt prompt oracle) ∧
      (panelAgentResults (expert_panel_worker prompt oracle stop).session).length
        = 2 * (panelDispatched stop).length) ∧
    (∀ (apiKey : String) (body : PairsBody) (oracle : Nat → Nat → ApiResp)
        (aggResp : ApiResp) (order : List Nat) (traces : List TraceEntry) (report : String),
      order.Perm (List.range (body.pairs.take 10).length) →
      pairs_run apiKey body oracle aggResp order = .ok traces report →
      traces.length = 2 * (body.pairs.take 10).length) := by
  constructor
  · intro prompt oracle stop
    refine ⟨(expert_panel_worker_spec prompt oracle stop).1,
      (expert_panel_worker_spec prompt oracle stop).2.2.1, ?_⟩
    rw [panelAgentResults_length, (expert_panel_worker_spec prompt oracle stop).2.2.1,
      List.length_map, List.length_range]
  · intro apiKey body oracle aggResp order traces report hperm h
    exact pairs_run_ok_traces_length apiKey body oracle aggResp order traces report hperm h

/-- C2 witness: a concrete one-pair run that completes with two traces. -/
theorem C2_witness :
    ([0] : List Nat).Perm (List.range ([(("a" : String), ("b" : String))].take 10).length) ∧
    pairs_run "k" ⟨"X", [("a", "b")], some 1, none, none⟩
        (fun _ _ => ApiResp.ok "y") (.ok "r") [0]
      = .ok [⟨"a", "y"⟩, ⟨"b", "y"⟩] "r" ∧
    ([(⟨"a", "y"⟩ : TraceEntry), ⟨"b", "y"⟩] : List TraceEntry).length
      = 2 * (([(("a" : String), ("b" : String))] : List (String × String)).take 10).length :=
  ⟨by decide, by decide,
    C2_fanout_counts.2 "k" ⟨"X", [("a", "b")], some 1, none, none⟩
      (fun _ _ => ApiResp.ok "y") (.ok "r") [0] [⟨"a", "y"⟩, ⟨"b", "y"⟩] "r"
      (by decide) (by decide)⟩

/-- A reply longer than any later sticky-context message, used to witness
that earlier replies are dropped from the rolling context. -/
def longReply : String := String.mk (List.replicate 200 'a')

/-- Oracle for the C3 counterexample run: turn 0 produces `longReply`,
every later turn produces `"b"`. -/
def c3oracle : Nat → ApiResp := fun i => if i = 0 then .ok longReply else .ok "b"

/-- C3 counterexample: in a 3-agent chain run the message of turn 3 is
built from the original prompt and turn 2's reply only — turn 1's reply
(`longReply`, recorded as turn 1's stored response) does not occur in it,
so the prompt is not the concatenation of the original prompt with a
transcript of all prior agents' replies. -/
theorem C3_counterexample :
    ((conference_chain_worker "X" 3 c3oracle (fun _ => false)).invocations.getD 0
        ⟨0, "", ""⟩).response = longReply ∧
    ((conference_chain_worker "X" 3 c3oracle (fun _ => false)).invocations.getD 2
        ⟨0, "", ""⟩).message = chainTemplate "X" "b" ∧
    ¬ containsStr (((conference_chain_worker "X" 3 c3oracle (fun _ => false)).invocations.getD 2
        ⟨0, "", ""⟩).message) longReply := by
  have h0 := chain_invocations_getElem? "X" 3 c3oracle (fun _ => false) 0 (by decide)
  have h2 := chain_invocations_getElem? "X" 3 c3oracle (fun _ => false) 2 (by decide)
  have hg0 : (conference_chain_worker "X" 3 c3oracle (fun _ => false)).invocations.getD 0
      ⟨0, "", ""⟩ = chainInvAt "X" c3oracle 0 := by
    rw [List.getD_eq_getElem?_getD, h0]; rfl
  have hg2 : (conference_chain_worker "X" 3 c3oracle (fun _ => false)).invocations.getD 2
      ⟨0, "", ""⟩ = chainInvAt "X" c3oracle 2 := by
    rw [List.getD_eq_getElem?_getD, h2]; rfl
  have hmsg : (chainInvAt "X" c3oracle 2).message = chainTemplate "X" "b" := by
    simp [chainInvAt, chainMessageAt, chainResponseAt, c3oracle, call_openrouter_api]
  refine ⟨?_, ?_, ?_⟩
  · rw [hg0]
    simp [chainInvAt, chainResponseAt, chainMessageAt, c3oracle, call_openrouter_api]
  · rw [hg2, hmsg]
  · rw [hg2, hmsg]
    intro hcontain
    have hle := containsStr_length hcontain
    have h1 : longReply.length = 200 := by
      show (List.replicate 200 'a').length = 200
      rw [List.length_replicate]
    have hlt : (chainTemplate "X" "b").length < 200 := by decide
    omega

/-- C3 (amended): the chain prompt for turn k+2 concatenates the original
prompt with ONLY the reply of turn k+1, under the fixed labels
`ORIGINAL PROMPT:` / `PREVIOUS INSIGHT:` and with no agent-name tags; the
rolling context keeps just the latest reply, dropping all earlier turns. -/
theorem C3_amended (prompt : String) (max_agents : Nat) (oracle : Nat → ApiResp)
    (stop : Nat → Bool) (k : Nat) (inv : ChainInvocation)
    (h : (conference_chain_worker prompt max_agents oracle stop).invocations[k + 1]?
      = some inv) :
    inv.message = chainTemplate prompt (chainResponseAt prompt oracle k) := by
  have hk1 : k + 1 < (chainDispatched stop (min max_agents RELAY_AGENTS.length)).length := by
    have hsome := (List.getElem?_eq_some.mp h).1
    rwa [(conference_chain_worker_spec prompt max_agents oracle stop).2.2.2.1,
      List.length_map] at hsome
  rw [chain_invocations_getElem? prompt max_agents oracle stop (k + 1) hk1] at h
  have hinv : inv = chainInvAt prompt oracle (k + 1) := by
    injection h.symm
  rw [hinv]
  rfl

/-- C3 witness: the amended statement at a concrete 3-agent run. -/
theorem C3_witness :
    (conference_chain_worker "X" 3 (fun _ => ApiResp.ok "y") (fun _ => false)).invocations[1]?
      = some ⟨1, chainTemplate "X" "y", "y"⟩ ∧
    (⟨1, chainTemplate "X" "y", "y"⟩ : ChainInvocation).message
      = chainTemplate "X" (chainResponseAt "X" (fun _ => ApiResp.ok "y") 0) :=
  ⟨by decide, C3_amended "X" 3 (fun _ => ApiResp.ok "y") (fun _ => false) 0
    ⟨1, chainTemplate "X" "y", "y"⟩ (by decide)⟩

/-- C4 (confirmed): in the session chain worker, turn 1 is invoked with a
message that IS the original prompt (so it contains it, with no prior
transcript), and every turn k+2's message contains both the original
prompt and the literal response text of turn k+1 verbatim.  In the
pipelines chain, the first performed invocation's user message is the tag
over the stripped prompt and the empty previous reply (rendered
`[none]`, i.e. no prior transcript), and whenever agent k succeeds the
next performed invocation's message is the tag over exactly agent k's
output, which contains both the prompt and that output verbatim. -/
theorem C4_chain_messages :
    (∀ (prompt : String) (max_agents : Nat) (oracle : Nat → ApiResp) (stop : Nat → Bool),
      (∀ inv, (conference_chain_worker prompt max_agents oracle stop).invocations[0]?
          = some inv → inv.message = prompt) ∧
      (∀ (k : Nat) (inv inv' : ChainInvocation),
        (conference_chain_worker prompt max_agents oracle stop).invocations[k]? = some inv →
        (conference_chain_worker prompt max_agents oracle stop).invocations[k + 1]?
          = some inv' →
        containsStr inv'.message prompt ∧ containsStr inv'.message inv.response)) ∧
    (∀ (apiKey : String) (body : ChainBody) (oracle : Nat → ApiResp) (aggResp : ApiResp)
        (m : String) (rest : List String),
      body.agents = m :: rest → pyStrip body.prompt ≠ "" →
      (chain_run apiKey body oracle aggResp).2[0]?
        = some (m, chain_tag (pyStrip body.prompt) "")) ∧
    (∀ (apiKey sysmsg prompt : String) (oracle : Nat → ApiResp) (i : Nat) (m : String)
        (j : Nat) (m' : String) (rest : List (Nat × String)) (prev : String)
        (traces : List TraceEntry) (out : String),
      call_llm apiKey m [⟨"system", sysmsg⟩, ⟨"user", chain_tag prompt prev⟩] (oracle i)
        = .ok out →
      out ≠ "" →
      (chain_run_loop apiKey sysmsg prompt oracle ((i, m) :: (j, m') :: rest) prev traces).2[1]?
        = some (m', chain_tag prompt out) ∧
      containsStr (chain_tag prompt out) prompt ∧ containsStr (chain_tag prompt out) out) := by
  refine ⟨?_, ?_, ?_⟩
  · intro prompt max_agents oracle stop
    constructor
    · intro inv h
      have hk0 : 0 < (chainDispatched stop (min max_agents RELAY_AGENTS.length)).length := by
        have hsome := (List.getElem?_eq_some.mp h).1
        rwa [(conference_chain_worker_spec prompt max_agents oracle stop).2.2.2.1,
          List.length_map] at hsome
      rw [chain_invocations_getElem? prompt max_agents oracle stop 0 hk0] at h
      have hinv : inv = chainInvAt prompt oracle 0 := by injection h.symm
      rw [hinv]
      rfl
    · intro k inv inv' h h'
      have hk1 : k + 1 < (chainDispatched stop (min max_agents RELAY_AGENTS.length)).length := by
        have hsome := (List.getElem?_eq_some.mp h').1
        rwa [(conference_chain_worker_spec prompt max_agents oracle stop).2.2.2.1,
          List.length_map] at hsome
      have hk : k < (chainDispatched stop (min max_agents RELAY_AGENTS.length)).length :=
        Nat.lt_of_succ_lt hk1
      rw [chain_invocations_getElem? prompt max_agents oracle stop k hk] at h
      rw [chain_invocations_getElem? prompt max_agents oracle stop (k + 1) hk1] at h'
      have hinv : inv = chainInvAt prompt oracle k := by injection h.symm
      have hinv' : inv' = chainInvAt prompt oracle (k + 1) := by injection h'.symm
      rw [hinv, hinv']
      constructor
      · exact chainTemplate_contains_prompt prompt (chainResponseAt prompt oracle k)
      · exact chainTemplate_contains_latest prompt (chainResponseAt prompt oracle k)
  · intro apiKey body oracle aggResp m rest hagents hp
    rw [chain_run_log apiKey body oracle aggResp hp (by rw [hagents]; exact List.cons_ne_nil m rest)]
    rw [hagents]
    have henum : (m :: rest).enum = (0, m) :: rest.enumFrom 1 := by
      simp [List.enum, List.enumFrom]
    rw [henum]
    exact chain_run_loop_log_head apiKey _ (pyStrip body.prompt) oracle 0 m _ "" []
  · intro apiKey sysmsg prompt oracle i m j m' rest prev traces out hok hne
    exact ⟨chain_run_loop_log_second apiKey sysmsg prompt oracle i m j m' rest prev traces
        out hok,
      chain_tag_contains_prompt prompt out, chain_tag_contains_prev prompt out hne⟩

/-- C4 witness: the worker part of C4 at a concrete 2-agent chain run. -/
theorem C4_witness :
    (conference_chain_worker "X" 2 (fun _ => ApiResp.ok "y") (fun _ => false)).invocations[0]?
      = some ⟨0, "X", "y"⟩ ∧
    (conference_chain_worker "X" 2 (fun _ => ApiResp.ok "y") (fun _ => false)).invocations[1]?
      = some ⟨1, chainTemplate "X" "y", "y"⟩ ∧
    (containsStr (chainTemplate "X" "y") "X" ∧ containsStr (chainTemplate "X" "y") "y") :=
  ⟨by decide, by decide,
    (C4_chain_messages.1 "X" 2 (fun _ => ApiResp.ok "y") (fun _ => false)).2 0
      ⟨0, "X", "y"⟩ ⟨1, chainTemplate "X" "y", "y"⟩ (by decide) (by decide)⟩

/-- C5 counterexample: `stop_session` invoked on a session that is already
in the terminal state `completed` is not a no-op — it transitions the
session out of the terminal state by overwriting the status with
`'stopped'`, both at the session record and through the store-level
route. -/
theorem C5_counterexample :
    (conference_chain_worker "X" 1 (fun _ => ApiResp.ok "y") (fun _ => false)).session.status
      = "completed" ∧
    (stop_session_update
      (conference_chain_worker "X" 1 (fun _ => ApiResp.ok "y") (fun _ => false)).session).status
      = "stopped" ∧
    (stop_session [("s", (conference_chain_worker "X" 1 (fun _ => ApiResp.ok "y")
        (fun _ => false)).session)] "s").2
      = [("s", stop_session_update (conference_chain_worker "X" 1 (fun _ => ApiResp.ok "y")
          (fun _ => false)).session)] :=
  ⟨by decide, by decide, by decide⟩

/-- C5 (amended): `stop_session` is idempotent and never touches the
stored results, but it is not a no-op on terminal sessions: it
unconditionally overwrites any current status — `completed` included —
with `'stopped'`, a state outside the queued→running→{completed,error}
set, so the no-transition-out-of-terminal discipline is not enforced. -/
theorem C5_amended :
    (∀ s : ChainSession, (stop_session_update s).status = "stopped" ∧
      (stop_session_update s).results = s.results ∧
      stop_session_update (stop_session_update s) = stop_session_update s) ∧
    (∀ p : PanelSession, (stop_session_updateP p).status = "stopped" ∧
      (stop_session_updateP p).results = p.results ∧
      stop_session_updateP (stop_session_updateP p) = stop_session_updateP p) :=
  ⟨fun _ => ⟨rfl, rfl, rfl⟩, fun _ => ⟨rfl, rfl, rfl⟩⟩

/-- C6 (confirmed): a missing or empty prompt (and, in the pairs pipeline,
an agent selection that resolves to zero usable agents, i.e. an empty pair
list) is rejected synchronously with a 400 before any session is created;
the session store is untouched, so a subsequent status poll for any
fabricated id still answers NotFound. -/
theorem C6_invalid_input (store : List (String × PanelSession)) (newId : String)
    (prompt : Option String) (h : prompt = none ∨ prompt = some "") :
    (start_expert_panel store newId prompt).1 = .badRequest "Prompt is required" ∧
    (start_expert_panel store newId prompt).2 = store ∧
    (∀ sid, List.lookup sid store = none →
      get_session_status (start_expert_panel store newId prompt).2 sid = .notFound) ∧
    (∀ (apiKey : String) (body : PairsBody) (oracle : Nat → Nat → ApiResp)
        (aggResp : ApiResp) (order : List Nat),
      pyStrip body.prompt = "" ∨ body.pairs = [] →
      pairs_run apiKey body oracle aggResp order = .invalid "prompt and pairs[] required") := by
  have hse : start_expert_panel store newId prompt = (.badRequest "Prompt is required", store) := by
    cases h with
    | inl h => rw [h]; rfl
    | inr h => rw [h]; rfl
  refine ⟨by rw [hse], by rw [hse], ?_, ?_⟩
  · intro sid hsid
    rw [hse]
    simp [get_session_status, hsid]
  · intro apiKey body oracle aggResp order hbad
    simp only [pairs_run]
    rw [if_pos hbad]

/-- C6 witness: the empty prompt and the empty pair list, with a fabricated
status poll on the untouched store. -/
theorem C6_witness :
    ((some "" : Option String) = none ∨ (some "" : Option String) = some "") ∧
    (start_expert_panel [] "s1" (some "")).1 = .badRequest "Prompt is required" ∧
    get_session_status (start_expert_panel [] "s1" (some "")).2 "fabricated" = .notFound ∧
    pairs_run "k" ⟨"", [], none, none, none⟩ (fun _ _ => ApiResp.ok "y") (.ok "r") []
      = .invalid "prompt and pairs[] required" :=
  ⟨Or.inr rfl,
    (C6_invalid_input [] "s1" (some "") (Or.inr rfl)).1,
    (C6_invalid_input [] "s1" (some "") (Or.inr rfl)).2.2.1 "fabricated" rfl,
    (C6_invalid_input [] "s1" (some "") (Or.inr rfl)).2.2.2 "k" ⟨"", [], none, none, none⟩
      (fun _ _ => ApiResp.ok "y") (.ok "r") [] (Or.inr rfl)⟩

/-- C7 counterexample: a failed invocation (here the upstream raises) is
stored with a non-null response — the rendered error text — and a
null/absent error field, not with a null response and a non-null error as
the claim requires. -/
theorem C7_counterexample :
    ((conference_chain_worker "X" 1 (fun _ => ApiResp.exn "boom")
        (fun _ => false)).session.results.getD 0
        ⟨0, "", "", none, none, false⟩).response = some "API Error: boom" ∧
    ((conference_chain_worker "X" 1 (fun _ => ApiResp.exn "boom")
        (fun _ => false)).session.results.getD 0
        ⟨0, "", "", none, none, false⟩).error = none :=
  ⟨by decide, by decide⟩

/-- C7 (amended): every stored Result has a non-null response and a
null/absent error field, for successes and failures alike — the result
dicts carry no `error` key at all, and failures are encoded as error text
inside `response`. -/
theorem C7_amended :
    (∀ (prompt : String) (max_agents : Nat) (oracle : Nat → ApiResp) (stop : Nat → Bool)
        (r : ChainResult),
      r ∈ (conference_chain_worker prompt max_agents oracle stop).session.results →
      (∃ t, r.response = some t) ∧ r.error = none) ∧
    (∀ (prompt : String) (oracle : Nat → ApiResp) (stop : Nat → Bool) (pr : PairResult),
      pr ∈ (expert_panel_worker prompt oracle stop).session.results →
      (∃ t, pr.agent_a.response = some t) ∧ pr.agent_a.error = none ∧
      (∃ t, pr.agent_b.response = some t) ∧ pr.agent_b.error = none) := by
  constructor
  · intro prompt max_agents oracle stop r hr
    rw [(conference_chain_worker_spec prompt max_agents oracle stop).2.2.1] at hr
    obtain ⟨i, _, hi⟩ := List.mem_map.mp hr
    rw [← hi]
    exact ⟨⟨chainResponseAt prompt oracle i, rfl⟩, rfl⟩
  · intro prompt oracle stop pr hpr
    rw [(expert_panel_worker_spec prompt oracle stop).2.2.1] at hpr
    obtain ⟨i, _, hi⟩ := List.mem_map.mp hpr
    rw [← hi]
    exact ⟨⟨call_openrouter_api (relayAgentAt (2 * i)) prompt (oracle (2 * i)), rfl⟩, rfl,
      ⟨call_openrouter_api (relayAgentAt (2 * i + 1)) prompt (oracle (2 * i + 1)), rfl⟩, rfl⟩

/-- C7 witness: the amended statement at a concrete stored result. -/
theorem C7_witness :
    mkChainResultAt "X" (fun _ => ApiResp.ok "y") 0
      ∈ (conference_chain_worker "X" 1 (fun _ => ApiResp.ok "y") (fun _ => false)).session.results ∧
    ((∃ t, (mkChainResultAt "X" (fun _ => ApiResp.ok "y") 0).response = some t) ∧
      (mkChainResultAt "X" (fun _ => ApiResp.ok "y") 0).error = none) :=
  ⟨by decide,
    C7_amended.1 "X" 1 (fun _ => ApiResp.ok "y") (fun _ => false)
      (mkChainResultAt "X" (fun _ => ApiResp.ok "y") 0) (by decide)⟩

/-- C8 counterexample: in the pairs pipeline, after both agent invocations
succeeded, a failing aggregator call aborts the whole request with a 500 —
the run is not reported completed and the raw per-agent traces are not
returned. -/
theorem C8_counterexample :
    pairs_run "k" ⟨"X", [("a", "b")], some 1, none, none⟩
        (fun _ _ => ApiResp.ok "y") (.exn "aggboom") [0]
      = .serverError "aggboom" ∧
    ∀ (traces : List TraceEntry) (report : String),
      pairs_run "k" ⟨"X", [("a", "b")], some 1, none, none⟩
          (fun _ _ => ApiResp.ok "y") (.exn "aggboom") [0] ≠ .ok traces report := by
  refine ⟨by decide, ?_⟩
  intro traces report hcontra
  rw [show pairs_run "k" ⟨"X", [("a", "b")], some 1, none, none⟩
      (fun _ _ => ApiResp.ok "y") (.exn "aggboom") [0] = .serverError "aggboom"
    by decide] at hcontra
  cases hcontra

/-- C8 (amended): only the conference synthesizer degrades gracefully on
aggregation failure: a non-success upstream status still yields a success
payload carrying `'Synthesis failed'` together with the stats of the
stored messages, and the stored conference — its collected messages
included — is left unchanged.  In the pairs pipeline an aggregator failure
aborts the whole request and discards the traces (see counterexample). -/
theorem C8_amended (store : List (String × Conference)) (cid : String) (conf : Conference)
    (code : Nat) (bodyText : String) (h : List.lookup cid store = some conf) :
    (synthesize_conference store cid (.httpError code bodyText)).1
      = .success "Synthesis failed" conf.messages.length conf.participants.length
          conf.current_round ∧
    (synthesize_conference store cid (.httpError code bodyText)).2 = store := by
  simp [synthesize_conference, h]

/-- C8 witness: the amended statement at a concrete stored conference. -/
theorem C8_witness :
    List.lookup "c"
        [("c", (⟨"c", "T", "roundtable", ["moderator"], 3, 0, [], "active", none, false⟩ :
          Conference))]
      = some ⟨"c", "T", "roundtable", ["moderator"], 3, 0, [], "active", none, false⟩ ∧
    (synthesize_conference
        [("c", (⟨"c", "T", "roundtable", ["moderator"], 3, 0, [], "active", none, false⟩ :
          Conference))] "c" (.httpError 500 "x")).1
      = .success "Synthesis failed" 0 1 0 :=
  ⟨by decide,
    (C8_amended [("c", ⟨"c", "T", "roundtable", ["moderator"], 3, 0, [], "active", none, false⟩)]
      "c" ⟨"c", "T", "roundtable", ["moderator"], 3, 0, [], "active", none, false⟩
      500 "x" (by decide)).1⟩

/-- C9 (confirmed): over the chronological trace of session-dict snapshots
that a concurrent `get_session_status` poll can observe — from the
route-created state through every worker mutation to the terminal state —
the progress counters the status payload reports (the current agent/pair
counter and `results_count`) are monotonically non-decreasing, for both
workers; hence any sequence of successive polls observes non-decreasing
progress. -/
theorem C9_progress_monotone (prompt : String) (max_agents : Nat) (oracle : Nat → ApiResp)
    (stop : Nat → Bool) (prompt2 : String) (oracle2 : Nat → ApiResp) (stop2 : Nat → Bool) :
    ((conference_chain_worker prompt max_agents oracle stop).trace.map chainStatusView).Pairwise
      (fun a b => a.current_agent ≤ b.current_agent ∧ a.results_count ≤ b.results_count) ∧
    ((expert_panel_worker prompt2 oracle2 stop2).trace.map panelStatusView).Pairwise
      (fun a b => a.current_pair ≤ b.current_pair ∧ a.results_count ≤ b.results_count) := by
  constructor
  · have hpw : (conference_chain_worker prompt max_agents oracle stop).trace.Pairwise progLe :=
      List.chain'_iff_pairwise.mp
        (conference_chain_worker_spec prompt max_agents oracle stop).2.2.2.2
    exact hpw.map chainStatusView (fun a b hab => ⟨hab.1, hab.2⟩)
  · have hpw : (expert_panel_worker prompt2 oracle2 stop2).trace.Pairwise progLeP :=
      List.chain'_iff_pairwise.mp (expert_panel_worker_spec prompt2 oracle2 stop2).2.2.2
    exact hpw.map panelStatusView (fun a b hab => ⟨hab.1, hab.2⟩)

/-- C10 (confirmed): for a stored conference whose participants list is
non-empty, continuing without an explicit participant never reaches the
modulo-by-zero error branch of the default rotation — the rotation always
selects an element of the list; and the non-emptiness precondition is
necessary, because `start_conference` accepts a client-supplied explicitly
empty participants list, after which `continue_conference` without a
participant hits exactly that error branch. -/
theorem C10_rotation (store : List (String × Conference)) (cid : String) (conf : Conference)
    (hlk : List.lookup cid store = some conf) (hne : conf.participants ≠ []) :
    (default_rotation conf
        = .ok (conf.participants.getD (conf.current_round % conf.participants.length) "") ∧
      conf.participants.getD (conf.current_round % conf.participants.length) ""
        ∈ conf.participants ∧
      ∀ (participant : Option String) (api : ApiResp),
        participant = none ∨ participant = some "" →
        (continue_conference store cid participant api).1
          ≠ .rotationError "integer division or modulo by zero") ∧
    ((start_conference (some "T") (some []) none none "c0" (.httpError 500 "x") []).1
        = .success ⟨"c0", "T", "roundtable", [], 3, 0, [], "active", none, false⟩ ∧
      (continue_conference
          (start_conference (some "T") (some []) none none "c0" (.httpError 500 "x") []).2
          "c0" none (.ok "y")).1
        = .rotationError "integer division or modulo by zero") := by
  have hlen0 : conf.participants.length ≠ 0 := by
    intro h0
    exact hne (List.length_eq_zero.mp h0)
  have hrot : default_rotation conf
      = .ok (conf.participants.getD (conf.current_round % conf.participants.length) "") := by
    rw [default_rotation, if_neg hlen0]
  refine ⟨⟨hrot, ?_, ?_⟩, by decide, by decide⟩
  · exact getD_mem_of_lt _ _ _ (Nat.mod_lt _ (Nat.pos_of_ne_zero hlen0))
  · intro participant api hpart
    have hsel : (match participant with
        | none => default_rotation conf
        | some p => if p = "" then default_rotation conf else .ok p)
        = .ok (conf.participants.getD (conf.current_round % conf.participants.length) "") := by
      cases hpart with
      | inl h => rw [h]; exact hrot
      | inr h => rw [h]; simpa using hrot
    by_cases hst : conf.status = "active"
    · simp only [continue_conference, hlk, hsel]
      rw [if_neg (by simp [hst])]
      cases hag : List.lookup
          (conf.participants.getD (conf.current_round % conf.participants.length) "")
          CONFERENCE_AGENTS with
      | none => simp
      | some agent => cases api <;> simp
    · simp only [continue_conference, hlk]
      rw [if_pos (by simp [hst])]
      simp

/-- C10 witness: the safe direction at a concrete one-participant
conference. -/
theorem C10_witness :
    List.lookup "c"
        [("c", (⟨"c", "T", "roundtable", ["moderator"], 3, 0, [], "active", none, false⟩ :
          Conference))]
      = some ⟨"c", "T", "roundtable", ["moderator"], 3, 0, [], "active", none, false⟩ ∧
    (⟨"c", "T", "roundtable", ["moderator"], 3, 0, [], "active", none, false⟩ :
      Conference).participants ≠ [] ∧
    default_rotation ⟨"c", "T", "roundtable", ["moderator"], 3, 0, [], "active", none, false⟩
      = .ok "moderator" :=
  ⟨by decide, by decide,
    (C10_rotation [("c", ⟨"c", "T", "roundtable", ["moderator"], 3, 0, [], "active", none, false⟩)]
      "c" ⟨"c", "T", "roundtable", ["moderator"], 3, 0, [], "active", none, false⟩
      (by decide) (by decide)).1.1⟩

end UnityLab
